import Mathlib

/-!
Verification of the ProxyDA plain-kernel adaptation pipeline
(`KPLA/models/plain_kernel/method.py` and
`KPLA/models/plain_kernel/adaptation.py`) against its specification.

Shallow embedding conventions:
* numpy arrays are modelled as a shape (list of dimension sizes) plus a
  flat row-major list of exact rationals; floating-point rounding is out
  of scope, all arithmetic is exact over `ℚ`;
* Python exceptions are modelled with `Except PyError`;
* the kernel-regression engine (`cme.py`, `bridge_h0.py`,
  `kernel_utils.py`) is not part of the sources under verification; its
  objects are kept abstract (see `CME`, `Bridge`, `FitFns`, `flattenRow`),
  only the orchestration plumbing around them is modelled.
-/

namespace KPLA

/-- Python exceptions raised by the modelled code paths. -/
inductive PyError where
  /-- dict lookup with a missing key -/
  | keyError (k : String)
  /-- e.g. subscripting `None`, or subscripting a list with a string -/
  | typeError (msg : String)
  /-- a failed `assert`/`raise AssertionError` -/
  | assertionError (msg : String)
  /-- e.g. numpy reshape size mismatch, sklearn metric errors -/
  | valueError (msg : String)
  /-- list or tuple index out of range -/
  | indexError (msg : String)
  /-- sklearn.exceptions.NotFittedError (never raised by the modelled code;
      present so that statements about the spec error taxonomy can be made) -/
  | notFittedError
  /-- reading a local variable that was never assigned -/
  | unboundLocal
deriving DecidableEq, Repr

/-- Is an `Except` computation an error? -/
def isErr {α : Type} : Except PyError α → Bool
  | .error _ => true
  | .ok _ => false

instance {ε α : Type} [DecidableEq ε] [DecidableEq α] : DecidableEq (Except ε α) := fun x y =>
  match x, y with
  | .ok a, .ok b =>
      if h : a = b then .isTrue (by rw [h]) else .isFalse (by intro hh; cases hh; exact h rfl)
  | .error a, .error b =>
      if h : a = b then .isTrue (by rw [h]) else .isFalse (by intro hh; cases hh; exact h rfl)
  | .ok _, .error _ => .isFalse (by intro h; cases h)
  | .error _, .ok _ => .isFalse (by intro h; cases h)

/-- A numpy ndarray: a shape together with the flat row-major data.
A wellformed array satisfies `data.length = shape.prod`. -/
structure NpArray where
  shape : List Nat
  data : List ℚ
deriving DecidableEq, Repr

/-- `ndarray.squeeze()`: drop all axes of size one, keep the data. -/
def squeeze (a : NpArray) : NpArray :=
  ⟨a.shape.filter (fun d => d ≠ 1), a.data⟩

/-- Python tuple comparison `s < t` (lexicographic, a strict prefix is
smaller), used by the source on `.shape` tuples. -/
def pyTupleLtB : List Nat → List Nat → Bool
  | [], [] => false
  | [], _ :: _ => true
  | _ :: _, [] => false
  | a :: s, b :: t => if a < b then true else if b < a then false else pyTupleLtB s t

/-- `ndarray.reshape(s)`: succeeds exactly when the total size matches,
otherwise numpy raises `ValueError`. -/
def npReshape (a : NpArray) (s : List Nat) : Except PyError NpArray :=
  if a.data.length = s.prod then .ok ⟨s, a.data⟩
  else .error (.valueError "cannot reshape array")

/-- Python dict lookup `d[k]` on a string-keyed dict (assoc list):
`KeyError` when the key is absent. -/
def dget {α : Type} (d : List (String × α)) (k : String) : Except PyError α :=
  match d.find? (fun kv => kv.1 == k) with
  | some kv => .ok kv.2
  | none => .error (.keyError k)

/-- Cut a flat list into `n` consecutive chunks of width `w`
(row extraction from a row-major array). -/
def takeChunks {α : Type} : Nat → Nat → List α → List (List α)
  | 0, _, _ => []
  | n + 1, w, xs => xs.take w :: takeChunks n w (xs.drop w)

/-- The rows of a 2-D array (`shape = [n, m]`): `n` chunks of width `m`. -/
def toRows (a : NpArray) : List (List ℚ) :=
  takeChunks (a.shape.headD 0) a.shape.tail.prod a.data

/-- `sklearn.metrics.mean_squared_error(y_true, y_pred)` with the default
uniform average: the mean of the squared entrywise differences.  (sklearn
additionally rejects empty or more-than-2-D input; the modelled call sites
only reach it with reconciled nonempty shapes.) -/
def mean_squared_error (t p : List ℚ) : ℚ :=
  ((t.zip p).map (fun ab => (ab.1 - ab.2) ^ 2)).sum / t.length

/-- `sklearn.metrics.accuracy_score`: the fraction of positions where the
two label lists agree (call sites always pass equal-length lists). -/
def accuracy_score (y t : List ℚ) : ℚ :=
  (((y.zip t).countP (fun ab => ab.1 == ab.2) : ℚ)) / y.length

/-- `sklearn.metrics.roc_auc_score(y_true, y_score)` for binary labels:
defined only when the true labels are exactly the two classes 0 and 1
(with both present); otherwise sklearn raises `ValueError` (in particular
the "Only one class present in y_true" error).  The AUC is the
probability that a uniformly chosen positive is scored above a uniformly
chosen negative, ties counting one half. -/
def roc_auc_score (y s : List ℚ) : Except PyError ℚ :=
  if (y.all fun v => v == 0 || v == 1) && y.contains 0 && y.contains 1 then
    let pairs := y.zip s
    let pos := (pairs.filter (fun vs => vs.1 == 1)).map (fun vs => vs.2)
    let neg := (pairs.filter (fun vs => vs.1 == 0)).map (fun vs => vs.2)
    .ok (((pos.map (fun a =>
        (neg.map (fun b =>
          if b < a then (1 : ℚ) else if a = b then 1/2 else 0)).sum)).sum)
      / (pos.length * neg.length))
  else .error (.valueError "ROC AUC is not defined for these labels")

/-- Integer square root, `⌊√n⌋`, by linear search (structural recursion so
that concrete instances reduce inside the kernel). -/
def intSqrt (n : Nat) : Nat :=
  ((List.range (n + 1)).filter (fun k => k * k ≤ n)).getLastD 0

/-- Exact rational square root used to model the Euclidean norms taken by
`sklearn.preprocessing.normalize`: exact whenever the argument is the
square of a nonnegative rational (numerator and denominator of the
reduced fraction both perfect squares) — every theorem below that
depends on a norm either assumes or instantiates this exactness. -/
def ratSqrt (q : ℚ) : ℚ :=
  ((intSqrt q.num.toNat : ℚ)) / ((intSqrt q.den : ℚ))

/-- Sum of squares of a list (the squared Euclidean norm of a row). -/
def sumSq (r : List ℚ) : ℚ := (r.map (fun v => v * v)).sum

/-- One row of `sklearn.preprocessing.normalize(X, axis=1)` with the
default L2 norm: divide by the Euclidean norm; rows of norm zero are
returned unchanged (sklearn maps zero norms to one). -/
def l2NormalizeRow (r : List ℚ) : List ℚ :=
  let nrm := ratSqrt (sumSq r)
  if nrm = 0 then r else r.map (fun v => v / nrm)

/-- `sklearn.preprocessing.normalize(X, axis=1)` (default `norm="l2"`)
applied to the rows of a matrix. -/
def sk_normalize (rows : List (List ℚ)) : List (List ℚ) :=
  rows.map l2NormalizeRow

/-- Index of the first maximal absolute value, tail recursion carrying the
current best index and value. -/
def argmaxAbsAux : List ℚ → Nat → Nat → ℚ → Nat
  | [], _, best, _ => best
  | v :: rest, i, best, bv =>
      if bv < |v| then argmaxAbsAux rest (i + 1) i |v|
      else argmaxAbsAux rest (i + 1) best bv

/-- `jnp.argmax(jnp.abs(row))`: first index attaining the maximal
absolute value (0 on the empty row, which numpy rejects). -/
def argmaxAbs : List ℚ → Nat
  | [] => 0
  | v :: rest => argmaxAbsAux rest 1 0 |v|

/-- Per-row arg-max labels of a 2-D array, as rationals:
`jnp.argmax(jnp.abs(a), axis=1)` (modelled for 2-D arrays, the only kind
the call sites pass). -/
def labels2D (a : NpArray) : List ℚ :=
  (toRows a).map (fun r => ((argmaxAbs r : Nat) : ℚ))

/-- Last entry of a row, `row[-1]` (0 on an empty row, which numpy
rejects). -/
def lastEntry (r : List ℚ) : ℚ := r.getLastD 0

/-- Last column of a 2-D array, `a[:, -1]`. -/
def lastColumn (a : NpArray) : List ℚ := (toRows a).map lastEntry

namespace KernelMethod

/-- The error message of `KernelMethod.score` for irreconcilable shapes. -/
def shapeMismatchMsg : String :=
  "Unresolveable shape mismatch between test_y and predict_y"

/-- The regression branch of `KernelMethod.score` (method.py lines
219-233), operating on the already-squeezed arrays: lexicographically
compare the shape tuples, conditionally guard and reshape exactly as the
source does, then return the MSE under key l2. -/
def scoreRegression (p t : NpArray) : Except PyError (List (String × ℚ)) := do
  let tp ←
    if pyTupleLtB p.shape t.shape then
      if t.shape.length ≠ p.shape.length + 1 ∧ t.shape.dropLast ≠ p.shape then
        .error (.assertionError shapeMismatchMsg)
      else do
        let p' ← npReshape p t.shape
        pure (t, p')
    else if pyTupleLtB t.shape p.shape then
      if t.shape.length + 1 ≠ p.shape.length ∧ t.shape ≠ p.shape.dropLast then
        .error (.assertionError shapeMismatchMsg)
      else do
        let t' ← npReshape t p.shape
        pure (t', p)
    else pure (t, p)
  pure [("l2", mean_squared_error tp.1.data tp.2.data)]

/-- The classification branch of `KernelMethod.score` (method.py lines
235-281), operating on the already-squeezed arrays: derive hard labels
(row arg-max for one-hot 2-D input, thresholding for the 1-D and
single-column signed-binary inputs, with -1 corrected to 0), choose the
probability column, then report accuracy followed by AUC-ROC — an AUC
failure therefore escapes before any metric is returned. -/
def scoreClassification (p t : NpArray) (predicty_prob : Option NpArray)
    (thres : ℚ) : Except PyError (List (String × ℚ)) := do
  let lab :=
    if 2 ≤ p.shape.length then
      if 2 ≤ (p.shape.get? 1).getD 0 then
        (labels2D t, labels2D p,
          match predicty_prob with
          | some q => lastColumn q
          | none => (sk_normalize ((toRows p).map (fun r => r.map (fun v => |v|)))).map lastEntry)
      else
        (t.data.map (fun v => if v == -1 then (0 : ℚ) else v),
          (toRows p).map (fun r => if thres ≤ lastEntry r then (1 : ℚ) else 0),
          match predicty_prob with
          | some q => lastColumn q
          | none => lastColumn p)
    else
      (t.data.map (fun v => if v == -1 then (0 : ℚ) else v),
        p.data.map (fun v => if thres ≤ v then (1 : ℚ) else 0),
        match predicty_prob with
        | some q => lastColumn q
        | none => p.data)
  let acc := accuracy_score lab.1 lab.2.1
  let auc ← roc_auc_score lab.1 lab.2.2
  pure [("hard_acc", acc), ("auc", auc)]

/-- `KernelMethod.score(predict_y, test_y, task, predicty_prob, thres)`
(method.py lines 200-281): squeeze both arrays, then dispatch on the
task.  A task other than r or c leaves the local `error` unassigned and
Python raises `UnboundLocalError` at the `return`. -/
def score (predict_y test_y : NpArray) (task : String)
    (predicty_prob : Option NpArray) (thres : ℚ) :
    Except PyError (List (String × ℚ)) :=
  let t := squeeze test_y
  let p := squeeze predict_y
  if task == "r" then scoreRegression p t
  else if task == "c" then scoreClassification p t predicty_prob thres
  else .error .unboundLocal

end KernelMethod

/-- Modelled from the spec: a fitted `ConditionalMeanEmbed` (`cme.py`, a
repository file absent from src/).  Spec section 4.2: a fitted CME is an
immutable value consumed opaquely by bridge estimators, so it is kept
abstract here as a tagged token; only which CME is plugged where matters
to the claims below. -/
structure CME where
  id : Nat
deriving DecidableEq, Repr

/-- A test-covariate dict such as the `test_x` argument of
`FullAdapt.predict` (e.g. a dict with key X). -/
abbrev TestX := List (String × NpArray)

/-- Modelled from the spec: a fitted bridge function (`BridgeH0` /
`BridgeH0CLF` from `bridge_h0.py`, a repository file absent from src/).
Spec section 4.3: the fitted object exposes
`get_exp_y_x(test_x, cme)` where the CME argument may come from a
different domain; the estimate itself is abstract. -/
structure Bridge where
  get_exp_y_x : TestX → CME → NpArray

/-- A value stored in a domain estimator bundle dict. -/
inductive EstVal where
  | cme (c : CME)
  | bridge (h : Bridge)

/-- A domain estimator bundle: the string-keyed Python dict built by
`_fit_one_domain` / `_fit_target_domain`. -/
abbrev Bundle := List (String × EstVal)

/-- A per-domain dataset dict: variable-block name to array. -/
abbrev Blocks := List (String × NpArray)

/-- `self.source_train` / `self.target_train` after construction: a dict,
turned into a Python list of three dicts by `FullAdapt.split_data`. -/
inductive TrainStore where
  | dict (d : Blocks)
  | list (l : List Blocks)

/-- Modelled from the spec: the constructors of the fitted estimators
(`ConditionalMeanEmbed(...)`, `BridgeH0(...)`, `BridgeH0CLF(...)` in
`cme.py` / `bridge_h0.py`, absent from src/).  Spec sections 4.2-4.3
describe them as deterministic fits of the supplied training data; the
numerical fitting is abstracted into opaque functions of the training
dict (the bridge constructor also receives the task string, which selects
`BridgeH0` for r and `BridgeH0CLF` for c).  The kernel/lam/method/scale
configuration is fixed per orchestrator and absorbed into these
functions. -/
structure FitFns where
  mk_cme_w_xc : Blocks → CME
  mk_cme_wc_x : Blocks → CME
  mk_h0 : String → Blocks → Bridge

/-- The mutable state of a `FullAdapt` orchestrator
(`KernelMethod.__init__` plus the `FullAdapt.__init__` additions). -/
structure FullAdaptState where
  source_train : TrainStore
  target_train : TrainStore
  source_test : Blocks
  target_test : Blocks
  split : Bool
  fns : FitFns
  thre : ℚ
  source_estimator : Option Bundle
  target_estimator : Option Bundle
  is_fitted : Bool
  classes_ : Option (List Nat)
  h_domain : String
  cme_domain : String

/-- Python `None[key]` / `bundle[key]`: subscripting the unset estimator
(`None`) raises `TypeError`; a dict lookup can raise `KeyError`. -/
def subNone (b : Option Bundle) (k : String) : Except PyError EstVal :=
  match b with
  | none => .error (.typeError "NoneType object is not subscriptable")
  | some d => dget d k

/-- Calling `.get_exp_y_x` on a bundle value: only a bridge object has
this attribute. -/
def asBridge : EstVal → Except PyError Bridge
  | .bridge h => .ok h
  | .cme _ => .error (.typeError "object has no attribute get_exp_y_x")

/-- Extracting a CME argument from a bundle value. -/
def asCME : EstVal → Except PyError CME
  | .cme c => .ok c
  | .bridge _ => .error (.typeError "expected a CME object")

/-- Python `store[key]` with a string key: `TypeError` when the store is
a list (as `self.source_train` is after `split_data`). -/
def tsGet (ts : TrainStore) (k : String) : Except PyError NpArray :=
  match ts with
  | .dict d => dget d k
  | .list _ => .error (.typeError "list indices must be integers")

namespace FullAdapt

/-- `FullAdapt.__init__` (adaptation.py lines 24-51 with
`KernelMethod.__init__`, method.py lines 60-133): store the data and
configuration, leave both estimator bundles unset (`None`), clear the
fitted flag, and default the prediction domains to source.  (The
`lam_set` / `method_set` / `kernel_dict` configuration is absorbed into
`fns`; the kernel_dict=None default-construction path, which crashes in
the source, is not modelled.) -/
def mkFullAdapt (source_train target_train : TrainStore)
    (source_test target_test : Blocks) (split : Bool) (fns : FitFns)
    (thre : ℚ) : FullAdaptState :=
  { source_train := source_train
    target_train := target_train
    source_test := source_test
    target_test := target_test
    split := split
    fns := fns
    thre := thre
    source_estimator := none
    target_estimator := none
    is_fitted := false
    classes_ := none
    h_domain := "source"
    cme_domain := "source" }

/-- `FullAdapt.predict(test_x, h_domain, cme_domain)` (adaptation.py
lines 355-373): take h0 from the source bundle exactly when `h_domain was
the string source` and from the target bundle otherwise; likewise take
`cme_wc_x` by `cme_domain`; return `h0.get_exp_y_x(test_x, cme_wc_x)`.
No fitted-state or domain-name validation is performed. -/
def predict (st : FullAdaptState) (test_x : TestX) (h_domain cme_domain : String) :
    Except PyError NpArray := do
  let h0v ←
    if h_domain == "source" then subNone st.source_estimator "h0"
    else subNone st.target_estimator "h0"
  let cmev ←
    if cme_domain == "source" then subNone st.source_estimator "cme_wc_x"
    else subNone st.target_estimator "cme_wc_x"
  let h0 ← asBridge h0v
  let cme ← asCME cmev
  pure (h0.get_exp_y_x test_x cme)

/-- The argument normalization of `FullAdapt.predict_proba`: a dict is
passed through, an ndarray is wrapped as a dict with key X. -/
inductive ProbaInput where
  | dict (d : TestX)
  | arr (a : NpArray)

/-- The covariate dict `predict_proba` builds from its argument. -/
def probaCovars : ProbaInput → TestX
  | .dict d => d
  | .arr a => [("X", a)]

/-- `FullAdapt.predict_proba(X)` (adaptation.py lines 206-220): predict
with the stored `h_domain` / `cme_domain` and pass the result through
`sklearn.preprocessing.normalize(..., axis=1)` — the default L2 (not L1)
normalization; sklearn rejects non-2-D input there. -/
def predict_proba (st : FullAdaptState) (X : ProbaInput) :
    Except PyError (List (List ℚ)) := do
  let predict_y ← predict st (probaCovars X) st.h_domain st.cme_domain
  if predict_y.shape.length == 2 then
    pure (sk_normalize (toRows predict_y))
  else .error (.valueError "Expected 2D array")

end FullAdapt

/-- `split_data_widx(data, split_index)` (method.py lines 35-51): select
the rows named by the index list from every block of the dict (the
ndim>1 and ndim=1 cases of the source both gather rows; indices at the
call sites come from a permutation of the row range, so numpy
out-of-range errors are not modelled). -/
def selectRows (a : NpArray) (idx : List Nat) : NpArray :=
  let w := a.shape.tail.prod
  let rows := takeChunks (a.shape.headD 0) w a.data
  ⟨idx.length :: a.shape.tail, (idx.map (fun i => (rows.get? i).getD [])).flatten⟩

/-- `split_data_widx` applied blockwise to a dataset dict. -/
def split_data_widx (data : Blocks) (split_index : List Nat) : Blocks :=
  data.map (fun kv => (kv.1, selectRows kv.2 split_index))

/-- Python `int(0.33 * n)`: modelled exactly as `⌊33 n / 100⌋`; this
agrees with the CPython double computation for every `n ≤ 5000`, which
covers all sample counts appearing in theorems below. -/
def pyInt033 (n : Nat) : Nat := 33 * n / 100

/-- Python `int(0.67 * n)`: modelled exactly as `⌊67 n / 100⌋` (same
verification note as `pyInt033`). -/
def pyInt067 (n : Nat) : Nat := 67 * n / 100

/-- `np.split(index, [a, b])`: the three sections `index[:a]`,
`index[a:b]`, `index[b:]`, with numpy slice clamping for out-of-range
boundaries. -/
def npSplit3 {α : Type} (idx : List α) (a b : Nat) : List (List α) :=
  [idx.take a, (idx.drop a).take (b - a), idx.drop b]

namespace FullAdapt

/-- `FullAdapt.split_data` (adaptation.py lines 53-71), parametrized by
the seeded permutation: `perm n` stands for
`np.random.RandomState(seed=42).permutation(n)` (a fixed deterministic
permutation of `range(n)`; the Mersenne-Twister stream itself is not
re-implemented, theorems quantify over any function producing a
permutation, and both call sites use the same function just as both
Python call sites use the same seed).  The source splits the source
indices at `int(0.33*n)` and `int(0.67*n)` — and reuses the same
`n`-based boundaries for the target indices, although it computes the
target count `n2` (adaptation.py line 66 uses `n`, not `n2`). -/
def split_data (perm : Nat → List Nat) (st : FullAdaptState) :
    Except PyError FullAdaptState := do
  let sx ← tsGet st.source_train "X"
  let n := sx.shape.headD 0
  let index := perm n
  let split_id := npSplit3 index (pyInt033 n) (pyInt067 n)
  let sdict ← match st.source_train with
    | .dict d => pure d
    | .list _ => .error (.typeError "list indices must be integers")
  let train_list := split_id.map (split_data_widx sdict)
  let tx ← tsGet st.target_train "X"
  let n2 := tx.shape.headD 0
  let index2 := perm n2
  let split_id2 := npSplit3 index2 (pyInt033 n) (pyInt067 n)
  let tdict ← match st.target_train with
    | .dict d => pure d
    | .list _ => .error (.typeError "list indices must be integers")
  let train_list2 := split_id2.map (split_data_widx tdict)
  pure { st with source_train := .list train_list, target_train := .list train_list2 }

/-- The `train_data` selection inside `_fit_one_domain`: with the split
option the domain data is a list and partition `i` is taken
(`domain_data[i]`), otherwise the whole dict is used each time.  The
Python subscript errors (`KeyError` on a dict indexed by an int,
`TypeError` on a list indexed by a string — surfacing at the first block
lookup) are reproduced. -/
def trainBlocks (split : Bool) (dd : TrainStore) (i : Nat) : Except PyError Blocks :=
  if split then
    match dd with
    | .list l =>
        match l.get? i with
        | some b => .ok b
        | none => .error (.indexError "list index out of range")
    | .dict _ => .error (.keyError "int key on dict")
  else
    match dd with
    | .dict d => .ok d
    | .list _ => .error (.typeError "list indices must be integers")

/-- `FullAdapt._fit_one_domain(domain_data, task)` (adaptation.py lines
73-173): fit `cme_w_xc` on partition 0 (blocks X, C, W), `cme_wc_x` on
partition 1 (blocks X and the stacked (W,C)), and the bridge h0 on
partition 2 (covariate blocks X, C from the first CME's Xlist, plus Y),
each partition being the whole training dict when the split option is
off; a task other than r or c leaves `h0` unassigned and Python raises
`UnboundLocalError`.  Returns the bundle dict with keys `cme_w_xc`,
`cme_wc_x`, `h0`. -/
def fit_one_domain (fns : FitFns) (split : Bool) (dd : TrainStore)
    (task : String) : Except PyError Bundle := do
  let t0 ← trainBlocks split dd 0
  let _ ← dget t0 "X"
  let _ ← dget t0 "C"
  let _ ← dget t0 "W"
  let cme_w_xc := fns.mk_cme_w_xc t0
  let t1 ← trainBlocks split dd 1
  let _ ← dget t1 "X"
  let _ ← dget t1 "W"
  let _ ← dget t1 "C"
  let cme_wc_x := fns.mk_cme_wc_x t1
  let t2 ← trainBlocks split dd 2
  let _ ← dget t2 "X"
  let _ ← dget t2 "C"
  let _ ← dget t2 "Y"
  if task == "r" || task == "c" then
    pure [("cme_w_xc", .cme cme_w_xc), ("cme_wc_x", .cme cme_wc_x),
          ("h0", .bridge (fns.mk_h0 task t2))]
  else .error .unboundLocal

/-- `FullAdapt._fit_target_domain(domain_data, task)` (adaptation.py
lines 175-204): fit only the CME of (W,C) given X on the whole target
training dict — and store it in the bundle under the key `cme_w_x`
(line 203), although the local variable holding it is `cme_wc_x` and
`predict` reads the key `cme_wc_x`. -/
def fit_target_domain (fns : FitFns) (dd : TrainStore) : Except PyError Bundle := do
  let b ← match dd with
    | .dict d => pure d
    | .list _ => .error (.typeError "list indices must be integers")
  let _ ← dget b "X"
  let _ ← dget b "W"
  let _ ← dget b "C"
  pure [("cme_w_x", .cme (fns.mk_cme_wc_x b))]

/-- `KernelMethod.fit(task, train_target)` (method.py lines 152-178):
optionally split, fit the source bundle, fit the target bundle (full or
reduced), set the fitted flag, and for classification set `classes_` to
`range(self.source_train[Y].shape[1])` — a read that subscripts
`self.source_train` with the string Y even when `split_data` has just
replaced it by a list.  (Python mutates `self` in place, so the
exception raised on that last line escapes after the flag was already
set; the model returns the error without the partially-updated state,
which is all the claims below need.) -/
def fit (perm : Nat → List Nat) (st : FullAdaptState) (task : String)
    (train_target : Bool) : Except PyError FullAdaptState := do
  let st ← if st.split then split_data perm st else pure st
  let se ← fit_one_domain st.fns st.split st.source_train task
  let te ←
    if train_target then fit_one_domain st.fns st.split st.target_train task
    else fit_target_domain st.fns st.target_train
  let st := { st with source_estimator := some se, target_estimator := some te,
                      is_fitted := true }
  if task == "c" then do
    let y ← tsGet st.source_train "Y"
    match y.shape.get? 1 with
    | some k => pure { st with classes_ := some (List.range k) }
    | none => .error (.indexError "tuple index out of range")
  else pure st

/-- Modelled from the spec: `kernel_utils.flatten` (`kernel_utils.py`,
a repository file absent from src/).  Spec section 6 describes each
evaluation record as having the columns task and predict error, the
latter being a mapping of metric name to value; the flattened record is
modelled as that pair. -/
def flattenRow (task : String) (err : List (String × ℚ)) :
    String × List (String × ℚ) := (task, err)

/-- `FullAdapt.evaluation(task, source_data, target_data)` (adaptation.py
lines 222-353, `plot=False` path): score five predictions — source
bridge+CME on the source test set (row source-source), target bridge+CME
on the source test set (row target-source), target bridge+CME on the
target test set (row target-target), source bridge+CME on the target
test set (row source-target), and source bridge with target CME on the
target test set (row adaptation) — and collect the flattened records in
that order.  Explicit `source_data` / `target_data` dicts override the
stored test sets. -/
def evaluation (st : FullAdaptState) (task : String)
    (source_data target_data : Option Blocks) :
    Except PyError (List (String × List (String × ℚ))) := do
  let sPair ←
    match source_data with
    | some d => do
        let x ← dget d "X"
        let y ← dget d "Y"
        pure (([("X", x)] : TestX), y)
    | none => do
        let x ← dget st.source_test "X"
        let y ← dget st.source_test "Y"
        pure (([("X", x)] : TestX), y)
  let py1 ← predict st sPair.1 "source" "source"
  let ss_error ← KernelMethod.score py1 sPair.2 task none st.thre
  let py2 ← predict st sPair.1 "target" "target"
  let ts_error ← KernelMethod.score py2 sPair.2 task none st.thre
  let tPair ←
    match target_data with
    | some d => do
        let x ← dget d "X"
        let y ← dget d "Y"
        pure (([("X", x)] : TestX), y)
    | none => do
        let x ← dget st.target_test "X"
        let y ← dget st.target_test "Y"
        pure (([("X", x)] : TestX), y)
  let py3 ← predict st tPair.1 "target" "target"
  let tt_error ← KernelMethod.score py3 tPair.2 task none st.thre
  let py4 ← predict st tPair.1 "source" "source"
  let st_error ← KernelMethod.score py4 tPair.2 task none st.thre
  let py5 ← predict st tPair.1 "source" "target"
  let adapt_error ← KernelMethod.score py5 tPair.2 task none st.thre
  pure [flattenRow "source-source" ss_error,
        flattenRow "target-source" ts_error,
        flattenRow "target-target" tt_error,
        flattenRow "source-target" st_error,
        flattenRow "adaptation" adapt_error]

end FullAdapt

/- Reduction helpers for the `Except` monad and concrete instances used
by several theorems below. -/

@[simp] theorem ebind_ok {α β : Type} (a : α) (f : α → Except PyError β) :
    (Except.ok a >>= f) = f a := rfl

@[simp] theorem ebind_err {α β : Type} (e : PyError) (f : α → Except PyError β) :
    ((Except.error e : Except PyError α) >>= f) = .error e := rfl

@[simp] theorem epure_eq {α : Type} (a : α) : (pure a : Except PyError α) = .ok a := rfl

@[simp] theorem isErr_error {α : Type} (e : PyError) :
    isErr (Except.error e : Except PyError α) = true := rfl

@[simp] theorem isErr_ok {α : Type} (a : α) :
    isErr (Except.ok a : Except PyError α) = false := rfl

/-- Stands in for the fixed seed-42 permutation
`np.random.RandomState(seed=42).permutation` in concrete instances; the
statements about `split_data` hold for every permutation-producing
function, so the Mersenne-Twister stream itself never matters. -/
def idPerm (n : Nat) : List Nat := List.range n

/-- A 2-sample test dataset dict (X and Y blocks) for concrete
instances. -/
def demoTest : Blocks := [("X", ⟨[2], [0, 0]⟩), ("Y", ⟨[2], [0, 0]⟩)]

/-- A 2-sample training dataset dict with all four blocks. -/
def demoTrain : Blocks :=
  [("X", ⟨[2, 1], [0, 0]⟩), ("C", ⟨[2, 1], [0, 0]⟩),
   ("W", ⟨[2, 1], [0, 0]⟩), ("Y", ⟨[2, 2], [1, 0, 1, 0]⟩)]

/-- Concrete fitted-component constructors for instances: CME tokens 1
and 2, and a bridge echoing the id of the CME it is evaluated with. -/
def demoFns : FitFns :=
  ⟨fun _ => ⟨1⟩, fun _ => ⟨2⟩, fun _ _ => ⟨fun _ c => ⟨[2], [(c.id : ℚ), (c.id : ℚ)]⟩⟩⟩

/-- A freshly constructed (never fitted) orchestrator on the demo data. -/
def freshState : FullAdaptState :=
  FullAdapt.mkFullAdapt (.dict demoTrain) (.dict demoTrain) demoTest demoTest
    false demoFns (1/2)

/-- A source bridge for instances: predicts `10 + id` of the supplied
CME, twice (one value per test row). -/
def srcBridge : Bridge := ⟨fun _ c => ⟨[2], [10 + (c.id : ℚ), 10 + (c.id : ℚ)]⟩⟩

/-- A target bridge for instances: predicts `20 + id` of the supplied
CME, twice. -/
def tgtBridge : Bridge := ⟨fun _ c => ⟨[2], [20 + (c.id : ℚ), 20 + (c.id : ℚ)]⟩⟩

/-- A full source estimator bundle (CME token 1 for `cme_wc_x`). -/
def srcBundle : Bundle :=
  [("cme_w_xc", .cme ⟨0⟩), ("cme_wc_x", .cme ⟨1⟩), ("h0", .bridge srcBridge)]

/-- A full target estimator bundle (CME token 2 for `cme_wc_x`). -/
def tgtBundle : Bundle :=
  [("cme_w_xc", .cme ⟨0⟩), ("cme_wc_x", .cme ⟨2⟩), ("h0", .bridge tgtBridge)]

/-- A fitted orchestrator state: both full bundles installed, as after
`fit(task, train_target=True)`. -/
def fittedState : FullAdaptState :=
  { freshState with
    source_estimator := some srcBundle
    target_estimator := some tgtBundle
    is_fitted := true }

end KPLA

namespace KPLA

/-- The orchestrator state reached from `freshState` by
`fit(task=r, train_target=False)`: full source bundle, reduced target
bundle whose only key is `cme_w_x`. -/
def c2Fitted : FullAdaptState :=
  { freshState with
    source_estimator := some
      [("cme_w_xc", .cme ⟨1⟩), ("cme_wc_x", .cme ⟨2⟩),
       ("h0", .bridge (demoFns.mk_h0 "r" demoTrain))]
    target_estimator := some [("cme_w_x", .cme ⟨2⟩)]
    is_fitted := true }

/-- A bridge returning the fixed 1x2 prediction row (3, 4). -/
def pbBridge : Bridge := ⟨fun _ _ => ⟨[1, 2], [3, 4]⟩⟩

/-- A fitted state whose source bridge predicts the single row (3, 4). -/
def pbState : FullAdaptState :=
  { freshState with
    source_estimator := some
      [("cme_w_xc", .cme ⟨0⟩), ("cme_wc_x", .cme ⟨1⟩), ("h0", .bridge pbBridge)]
    target_estimator := some tgtBundle
    is_fitted := true }

end KPLA

/-- C2: after fitting with train_target=False, the target bundle stores
the target CME under the key cme_w_x (adaptation.py line 203) while
predict reads the key cme_wc_x (line 370), so
predict(test_x, source, target) raises KeyError instead of succeeding
with the target CME; selection by domain works as claimed only where the
looked-up keys exist (third conjunct: the source/source path returns
h0.get_exp_y_x of the source bridge and source CME). -/
theorem fit_reduced_target_predict_keyerror :
    KPLA.FullAdapt.fit KPLA.idPerm KPLA.freshState "r" false = .ok KPLA.c2Fitted ∧
    KPLA.FullAdapt.predict KPLA.c2Fitted [("X", ⟨[2], [0, 0]⟩)] "source" "target" =
      .error (.keyError "cme_wc_x") ∧
    KPLA.FullAdapt.predict KPLA.c2Fitted [("X", ⟨[2], [0, 0]⟩)] "source" "source" =
      .ok ((KPLA.demoFns.mk_h0 "r" KPLA.demoTrain).get_exp_y_x
        [("X", ⟨[2], [0, 0]⟩)] ⟨2⟩) := by
  refine ⟨?_, ?_, ?_⟩ <;> with_unfolding_all rfl

/-- C8 (counterexample): on a freshly constructed orchestrator, predict
and evaluation raise TypeError (subscripting the None estimator bundle),
which is not NotFittedError. -/
theorem unfitted_raises_typeerror_not_notfittederror :
    KPLA.FullAdapt.predict KPLA.freshState [("X", ⟨[2], [0, 0]⟩)] "source" "source" =
      .error (.typeError "NoneType object is not subscriptable") ∧
    KPLA.FullAdapt.evaluation KPLA.freshState "r" none none =
      .error (.typeError "NoneType object is not subscriptable") ∧
    KPLA.PyError.typeError "NoneType object is not subscriptable" ≠
      KPLA.PyError.notFittedError := by
  refine ⟨by with_unfolding_all rfl, by with_unfolding_all rfl, by decide⟩

/-- C8 (amended): for every freshly constructed orchestrator (any
constructor arguments) whose stored source test set has X and Y blocks,
calling predict or evaluation before fit raises TypeError from
subscripting the unset (None) source estimator bundle — not
NotFittedError. -/
theorem unfitted_predict_and_evaluation_typeerror
    (strain ttrain : KPLA.TrainStore) (stest ttest : KPLA.Blocks) (split : Bool)
    (fns : KPLA.FitFns) (thre : ℚ) (test_x : KPLA.TestX) (task : String)
    (xa ya : KPLA.NpArray)
    (hx : KPLA.dget stest "X" = .ok xa) (hy : KPLA.dget stest "Y" = .ok ya) :
    KPLA.FullAdapt.predict
        (KPLA.FullAdapt.mkFullAdapt strain ttrain stest ttest split fns thre)
        test_x "source" "source" =
      .error (.typeError "NoneType object is not subscriptable") ∧
    KPLA.FullAdapt.evaluation
        (KPLA.FullAdapt.mkFullAdapt strain ttrain stest ttest split fns thre)
        task none none =
      .error (.typeError "NoneType object is not subscriptable") := by
  constructor
  · simp [KPLA.FullAdapt.predict, KPLA.FullAdapt.mkFullAdapt, KPLA.subNone]
  · simp [KPLA.FullAdapt.evaluation, KPLA.FullAdapt.mkFullAdapt, hx, hy,
      KPLA.FullAdapt.predict, KPLA.subNone]

/-- C8 (witness): the amended statement instantiated on the concrete
fresh orchestrator. -/
theorem unfitted_predict_and_evaluation_typeerror_witness :
    KPLA.FullAdapt.predict
        (KPLA.FullAdapt.mkFullAdapt (.dict KPLA.demoTrain) (.dict KPLA.demoTrain)
          KPLA.demoTest KPLA.demoTest false KPLA.demoFns (1/2))
        [("X", ⟨[2], [0, 0]⟩)] "source" "source" =
      .error (.typeError "NoneType object is not subscriptable") ∧
    KPLA.FullAdapt.evaluation
        (KPLA.FullAdapt.mkFullAdapt (.dict KPLA.demoTrain) (.dict KPLA.demoTrain)
          KPLA.demoTest KPLA.demoTest false KPLA.demoFns (1/2))
        "r" none none =
      .error (.typeError "NoneType object is not subscriptable") :=
  unfitted_predict_and_evaluation_typeerror (.dict KPLA.demoTrain)
    (.dict KPLA.demoTrain) KPLA.demoTest KPLA.demoTest false KPLA.demoFns (1/2)
    [("X", ⟨[2], [0, 0]⟩)] "r" ⟨[2], [0, 0]⟩ ⟨[2], [0, 0]⟩ rfl rfl

/-- C10: predict validates neither domain argument — for every state and
every pair of domain strings other than exactly source, the target
bundle's bridge and CME are silently selected and the call succeeds
(returns that bridge applied to that CME) whenever the target bundle
holds them; no error is raised for an unrecognized domain name. -/
theorem predict_no_domain_validation (st : KPLA.FullAdaptState)
    (test_x : KPLA.TestX) (h_domain cme_domain : String)
    (h0 : KPLA.Bridge) (cme : KPLA.CME)
    (hh : h_domain ≠ "source") (hc : cme_domain ≠ "source")
    (hb : KPLA.subNone st.target_estimator "h0" = .ok (.bridge h0))
    (hcme : KPLA.subNone st.target_estimator "cme_wc_x" = .ok (.cme cme)) :
    KPLA.FullAdapt.predict st test_x h_domain cme_domain =
      .ok (h0.get_exp_y_x test_x cme) := by
  simp [KPLA.FullAdapt.predict, hh, hc, hb, hcme, KPLA.asBridge, KPLA.asCME]

/-- C10 (witness): a fitted state queried with the misspelled domains
Target and tgt silently uses the target bridge and target CME. -/
theorem predict_no_domain_validation_witness :
    KPLA.FullAdapt.predict KPLA.fittedState [("X", ⟨[2], [0, 0]⟩)] "Target" "tgt" =
      .ok (KPLA.tgtBridge.get_exp_y_x [("X", ⟨[2], [0, 0]⟩)] ⟨2⟩) :=
  predict_no_domain_validation KPLA.fittedState [("X", ⟨[2], [0, 0]⟩)] "Target" "tgt"
    KPLA.tgtBridge ⟨2⟩ (by decide) (by decide) rfl rfl

/-- Dividing every entry by a constant divides the sum of squares by the
square of the constant (also for the constant 0, where both sides are 0
under rational division-by-zero conventions). -/
theorem sumSq_map_div (r : List ℚ) (c : ℚ) :
    KPLA.sumSq (r.map (fun v => v / c)) = KPLA.sumSq r / c ^ 2 := by
  induction r with
  | nil => simp [KPLA.sumSq]
  | cons v rest ih =>
      simp only [KPLA.sumSq, List.map_cons, List.sum_cons] at *
      rw [ih, sq]
      rw [div_mul_div_comm, div_add_div_same]

/-- C4 (counterexample): a fitted classification orchestrator whose
prediction row is (3, 4): predict_proba returns the L2-normalized row
(3/5, 4/5), whose entries sum to 7/5, not 1. -/
theorem predict_proba_row_not_probability :
    KPLA.FullAdapt.predict_proba KPLA.pbState (.arr ⟨[2], [0, 0]⟩) =
      .ok [[3/5, 4/5]] ∧
    ((3 : ℚ)/5 + 4/5) ≠ 1 := by
  refine ⟨by with_unfolding_all rfl, by norm_num⟩

/-- C4 (amended): each row of predict_proba is the L2 (Euclidean)
normalization of the corresponding predicted row — sklearn's
normalize(..., axis=1) default — so every nonzero row has its squared
entries summing to 1 (entries keep their sign and the plain row sum need
not be 1).  Stated for rows whose Euclidean norm is exactly representable
(`ratSqrt` exactness hypothesis), which covers every concrete instance
used here; the prediction itself is whatever predict returns on the
stored domains. -/
theorem predict_proba_l2_rows (st : KPLA.FullAdaptState)
    (X : KPLA.FullAdapt.ProbaInput) (M : KPLA.NpArray)
    (hM : KPLA.FullAdapt.predict st (KPLA.FullAdapt.probaCovars X)
        st.h_domain st.cme_domain = .ok M)
    (h2 : M.shape.length = 2) :
    KPLA.FullAdapt.predict_proba st X = .ok (KPLA.sk_normalize (KPLA.toRows M)) ∧
    ∀ r ∈ KPLA.toRows M, KPLA.ratSqrt (KPLA.sumSq r) ^ 2 = KPLA.sumSq r →
      KPLA.sumSq r ≠ 0 →
      KPLA.l2NormalizeRow r = r.map (fun v => v / KPLA.ratSqrt (KPLA.sumSq r)) ∧
      KPLA.sumSq (KPLA.l2NormalizeRow r) = 1 := by
  constructor
  · simp [KPLA.FullAdapt.predict_proba, hM, h2]
  · intro r _ hsq hne
    have hnrm : KPLA.ratSqrt (KPLA.sumSq r) ≠ 0 := by
      intro h0
      rw [h0] at hsq
      simp at hsq
      exact hne hsq.symm
    constructor
    · simp [KPLA.l2NormalizeRow, hnrm]
    · simp [KPLA.l2NormalizeRow, hnrm, sumSq_map_div, hsq]
      exact div_self hne

/-- C4 (witness): the amended statement instantiated at the concrete
state predicting the row (3, 4), whose norm 5 is exact. -/
theorem predict_proba_l2_rows_witness :
    KPLA.FullAdapt.predict_proba KPLA.pbState (.arr ⟨[2], [0, 0]⟩) =
      .ok (KPLA.sk_normalize (KPLA.toRows ⟨[1, 2], [3, 4]⟩)) ∧
    ∀ r ∈ KPLA.toRows ⟨[1, 2], [3, 4]⟩,
      KPLA.ratSqrt (KPLA.sumSq r) ^ 2 = KPLA.sumSq r → KPLA.sumSq r ≠ 0 →
      KPLA.l2NormalizeRow r = r.map (fun v => v / KPLA.ratSqrt (KPLA.sumSq r)) ∧
      KPLA.sumSq (KPLA.l2NormalizeRow r) = 1 :=
  predict_proba_l2_rows KPLA.pbState (.arr ⟨[2], [0, 0]⟩) ⟨[1, 2], [3, 4]⟩
    (by with_unfolding_all rfl) rfl

namespace KPLA

/-- The claim's notion of reconcilable shapes: equal, or ranks differing
by exactly one with the same total size (so that a single reshape that
adds or removes one dimension can identify the arrays). -/
def reconcilableShapes (s t : List Nat) : Prop :=
  s = t ∨ (s.length = t.length + 1 ∧ s.prod = t.prod) ∨
    (t.length = s.length + 1 ∧ s.prod = t.prod)

instance (s t : List Nat) : Decidable (reconcilableShapes s t) := by
  unfold reconcilableShapes
  infer_instance

/-- Dropping the size-one axes does not change the total size. -/
theorem filter_ne_one_prod (l : List Nat) :
    (l.filter (fun d => d ≠ 1)).prod = l.prod := by
  induction l with
  | nil => rfl
  | cons a t ih =>
      rw [List.filter_cons]
      by_cases h : a = 1
      · rw [if_neg (by simp [h]), ih, List.prod_cons, h, one_mul]
      · rw [if_pos (by simp [h]), List.prod_cons, List.prod_cons, ih]

/-- Nothing is tuple-smaller than the empty tuple. -/
theorem pyTupleLtB_nil (s : List Nat) : pyTupleLtB s [] = false := by
  cases s <;> rfl

/-- Python tuple comparison is total: two tuples neither of which is
smaller are equal. -/
theorem pyTupleLtB_total : ∀ s t : List Nat,
    pyTupleLtB s t = false → pyTupleLtB t s = false → s = t
  | [], [], _, _ => rfl
  | [], _ :: _, h1, _ => by simp [pyTupleLtB] at h1
  | _ :: _, [], _, h2 => by simp [pyTupleLtB] at h2
  | a :: s, b :: t, h1, h2 => by
      by_cases hab : a < b
      · simp [pyTupleLtB, hab] at h1
      · by_cases hba : b < a
        · simp [pyTupleLtB, hba] at h2
        · have hEq : a = b := le_antisymm (not_lt.mp hba) (not_lt.mp hab)
          have hrec := pyTupleLtB_total s t
            (by simpa [pyTupleLtB, hab, hba] using h1)
            (by simpa [pyTupleLtB, hab, hba] using h2)
          rw [hEq, hrec]

/-- The regression shape-reconciliation of `score` fails (with the
AssertionError or the numpy reshape ValueError) on every pair of
wellformed arrays whose shapes are not reconcilable. -/
theorem scoreRegression_irreconcilable (p t : NpArray)
    (hp : p.data.length = p.shape.prod) (ht : t.data.length = t.shape.prod)
    (h : ¬ reconcilableShapes t.shape p.shape) :
    isErr (KernelMethod.scoreRegression p t) = true := by
  have hne : t.shape ≠ p.shape := fun hh => h (Or.inl hh)
  unfold KernelMethod.scoreRegression
  cases hlt : pyTupleLtB p.shape t.shape with
  | true =>
      rw [if_pos rfl]
      by_cases hlen : t.shape.length = p.shape.length + 1
      · have hprod : p.data.length ≠ t.shape.prod := by
          rw [hp]
          intro he
          exact h (Or.inr (Or.inl ⟨hlen, he.symm⟩))
        rw [if_neg (by simp [hlen])]
        rw [npReshape, if_neg hprod]
        rfl
      · have hdrop : t.shape.dropLast ≠ p.shape := by
          intro he
          cases hts : t.shape with
          | nil =>
              rw [hts] at he
              simp only [List.dropLast_nil] at he
              exact hne (hts.trans he)
          | cons d ds =>
              apply hlen
              have hl : t.shape.dropLast.length = p.shape.length := by rw [he]
              rw [List.length_dropLast, hts] at hl
              simp at hl
              rw [hts]
              simp [hl.symm]
        rw [if_pos ⟨hlen, hdrop⟩]
        rfl
  | false =>
      cases hlt2 : pyTupleLtB t.shape p.shape with
      | true =>
          rw [if_neg (by simp), if_pos rfl]
          by_cases hlen : t.shape.length + 1 = p.shape.length
          · have hprod : t.data.length ≠ p.shape.prod := by
              rw [ht]
              intro he
              exact h (Or.inr (Or.inr ⟨hlen.symm, he⟩))
            rw [if_neg (by simp [hlen])]
            rw [npReshape, if_neg hprod]
            rfl
          · have hdrop : t.shape ≠ p.shape.dropLast := by
              intro he
              cases hps : p.shape with
              | nil =>
                  rw [hps, pyTupleLtB_nil] at hlt2
                  cases hlt2
              | cons d ds =>
                  apply hlen
                  have hl : t.shape.length = p.shape.dropLast.length := by rw [he]
                  rw [List.length_dropLast, hps] at hl
                  simp at hl
                  rw [hps]
                  simp [hl]
            rw [if_pos ⟨hlen, hdrop⟩]
            rfl
      | false =>
          exact absurd (pyTupleLtB_total t.shape p.shape hlt2 hlt) hne

end KPLA

/-- C7: whenever the squeezed shapes of the predicted and true arrays
are irreconcilable (unequal, and not reachable from each other by a
single rank-changing reshape of matching total size), regression scoring
raises — either the AssertionError of the explicit guard or the numpy
reshape ValueError — and never returns a metric. -/
theorem score_r_irreconcilable (predict_y test_y : KPLA.NpArray) (thres : ℚ)
    (hp : predict_y.data.length = predict_y.shape.prod)
    (ht : test_y.data.length = test_y.shape.prod)
    (h : ¬ KPLA.reconcilableShapes (KPLA.squeeze test_y).shape
        (KPLA.squeeze predict_y).shape) :
    KPLA.isErr (KPLA.KernelMethod.score predict_y test_y "r" none thres) = true := by
  have hp' : (KPLA.squeeze predict_y).data.length = (KPLA.squeeze predict_y).shape.prod := by
    show predict_y.data.length = (predict_y.shape.filter (fun d => d ≠ 1)).prod
    rw [KPLA.filter_ne_one_prod]
    exact hp
  have ht' : (KPLA.squeeze test_y).data.length = (KPLA.squeeze test_y).shape.prod := by
    show test_y.data.length = (test_y.shape.filter (fun d => d ≠ 1)).prod
    rw [KPLA.filter_ne_one_prod]
    exact ht
  exact KPLA.scoreRegression_irreconcilable _ _ hp' ht' h

/-- C7 (witness): 1-D arrays of lengths 4 and 3 are irreconcilable and
regression scoring on them errors out. -/
theorem score_r_irreconcilable_witness :
    ¬ KPLA.reconcilableShapes (KPLA.squeeze ⟨[3], [0, 0, 0]⟩).shape
        (KPLA.squeeze ⟨[4], [0, 0, 0, 0]⟩).shape ∧
    KPLA.isErr (KPLA.KernelMethod.score ⟨[4], [0, 0, 0, 0]⟩ ⟨[3], [0, 0, 0]⟩
      "r" none (1/2)) = true :=
  ⟨by decide, score_r_irreconcilable ⟨[4], [0, 0, 0, 0]⟩ ⟨[3], [0, 0, 0]⟩ (1/2)
    rfl rfl (by decide)⟩

namespace KPLA

/-- The one-hot (n, 2) array whose rows are all (1, 0): true labels all
class 0, and predictions with all mass on column 0. -/
def oneHot (n : Nat) : NpArray :=
  ⟨[n, 2], (List.replicate n ([1, 0] : List ℚ)).flatten⟩

/-- Chunking the concatenation of `n` copies of a width-`w` row recovers
the rows. -/
theorem takeChunks_flatten_replicate {α : Type} (w : Nat) (r : List α)
    (hw : r.length = w) :
    ∀ n, takeChunks n w (List.replicate n r).flatten = List.replicate n r
  | 0 => rfl
  | n + 1 => by
      rw [List.replicate_succ, List.flatten_cons]
      show (r ++ (List.replicate n r).flatten).take w ::
          takeChunks n w ((r ++ (List.replicate n r).flatten).drop w) = _
      rw [← hw, List.take_left, List.drop_left,
        takeChunks_flatten_replicate r.length r rfl n]

/-- The first arg-max of the absolute values of the row (1, 0) is
index 0. -/
theorem argmaxAbs_row10 : argmaxAbs [(1 : ℚ), 0] = 0 := by
  with_unfolding_all rfl

/-- Zipping a list with itself makes every predicate-match succeed. -/
theorem countP_zip_self (xs : List ℚ) :
    (xs.zip xs).countP (fun ab => ab.1 == ab.2) = xs.length := by
  induction xs with
  | nil => rfl
  | cons a t ih => simp [List.zip_cons_cons, List.countP_cons, ih]

/-- Accuracy of a nonempty label list against itself is 1. -/
theorem accuracy_score_self (xs : List ℚ) (h : xs ≠ []) :
    accuracy_score xs xs = 1 := by
  unfold accuracy_score
  rw [countP_zip_self]
  exact div_self (by
    simpa using fun hh => h (List.length_eq_zero.mp hh))

/-- A list of zeros never contains the label 1. -/
theorem replicate_zero_contains_one (n : Nat) :
    (List.replicate n (0 : ℚ)).contains 1 = false := by
  induction n with
  | zero => rfl
  | succ n ih =>
      rw [List.replicate_succ]
      simp [ih]

/-- AUC-ROC on an all-zero (single-class) label list raises, whatever the
scores. -/
theorem roc_auc_replicate_zero (n : Nat) (s : List ℚ) :
    roc_auc_score (List.replicate n 0) s =
      .error (.valueError "ROC AUC is not defined for these labels") := by
  unfold roc_auc_score
  rw [if_neg]
  simp [replicate_zero_contains_one n]

end KPLA

/-- C5 (counterexample): at n = 2 (labels all class 0, predictions all
mass on column 0), score with task c raises the AUC ValueError before
returning any metric, so no accuracy is returned at all. -/
theorem score_onehot_n2_raises :
    KPLA.KernelMethod.score (KPLA.oneHot 2) (KPLA.oneHot 2) "c" none (1/2) =
      .error (.valueError "ROC AUC is not defined for these labels") := by
  with_unfolding_all rfl

/-- C5 (amended): for one-hot class-0 test labels with all prediction
mass on column 0, the derived hard labels always agree (accuracy 1), but
score only returns metrics for n = 1 (where the squeeze to 1-D
accidentally yields two-class label vectors); for every n ≥ 2 the AUC
computation raises ValueError (single-class y_true) and score returns
nothing. -/
theorem score_onehot_class0 (n : Nat) (h : 1 ≤ n) :
    (2 ≤ n →
      KPLA.accuracy_score (KPLA.labels2D (KPLA.oneHot n))
          (KPLA.labels2D (KPLA.oneHot n)) = 1 ∧
      KPLA.KernelMethod.score (KPLA.oneHot n) (KPLA.oneHot n) "c" none (1/2) =
        .error (.valueError "ROC AUC is not defined for these labels")) ∧
    KPLA.KernelMethod.score (KPLA.oneHot 1) (KPLA.oneHot 1) "c" none (1/2) =
      .ok [("hard_acc", 1), ("auc", 1)] := by
  constructor
  · intro hn
    have hne1 : n ≠ 1 := by omega
    have hsq : KPLA.squeeze (KPLA.oneHot n) = KPLA.oneHot n := by
      simp [KPLA.squeeze, KPLA.oneHot, List.filter, hne1]
    have hrows : KPLA.toRows (KPLA.oneHot n) = List.replicate n [1, 0] := by
      unfold KPLA.toRows KPLA.oneHot
      simpa using KPLA.takeChunks_flatten_replicate 2 [1, 0] rfl n
    have hlab : KPLA.labels2D (KPLA.oneHot n) = List.replicate n 0 := by
      unfold KPLA.labels2D
      rw [hrows, List.map_replicate, KPLA.argmaxAbs_row10]
      simp
    refine ⟨?_, ?_⟩
    · rw [hlab]
      refine KPLA.accuracy_score_self _ ?_
      intro hnil
      have := congrArg List.length hnil
      simp at this
      omega
    · unfold KPLA.KernelMethod.score
      rw [if_neg (by decide), if_pos (by decide)]
      unfold KPLA.KernelMethod.scoreClassification
      rw [hsq]
      rw [if_pos (by simp [KPLA.oneHot]), if_pos (by simp [KPLA.oneHot])]
      rw [hlab]
      simp only [KPLA.roc_auc_replicate_zero, KPLA.ebind_err]
  · with_unfolding_all rfl

/-- C5 (witness): the amended statement instantiated at n = 2, with the
inner bound discharged. -/
theorem score_onehot_class0_witness :
    KPLA.accuracy_score (KPLA.labels2D (KPLA.oneHot 2))
        (KPLA.labels2D (KPLA.oneHot 2)) = 1 ∧
    KPLA.KernelMethod.score (KPLA.oneHot 2) (KPLA.oneHot 2) "c" none (1/2) =
      .error (.valueError "ROC AUC is not defined for these labels") :=
  (score_onehot_class0 2 (by omega)).1 (by omega)

namespace KPLA

/-- A 30-sample source training dict (one-hot Y of width 2). -/
def c3Source : Blocks :=
  [("X", ⟨[30, 1], List.replicate 30 0⟩), ("C", ⟨[30, 1], List.replicate 30 0⟩),
   ("W", ⟨[30, 1], List.replicate 30 0⟩), ("Y", ⟨[30, 2], List.replicate 60 0⟩)]

/-- A 9-sample target training dict. -/
def c3Target : Blocks :=
  [("X", ⟨[9, 1], List.replicate 9 0⟩), ("C", ⟨[9, 1], List.replicate 9 0⟩),
   ("W", ⟨[9, 1], List.replicate 9 0⟩), ("Y", ⟨[9, 2], List.replicate 18 0⟩)]

/-- An orchestrator with the split option enabled, 30 source samples and
9 target samples. -/
def c3State : FullAdaptState :=
  FullAdapt.mkFullAdapt (.dict c3Source) (.dict c3Target) demoTest demoTest
    true demoFns (1/2)

/-- Number of samples of a dataset dict, read off its X block. -/
def blockRows (b : Blocks) : Nat :=
  match dget b "X" with
  | .ok a => a.shape.headD 0
  | .error _ => 0

/-- The per-partition sample counts of a split training store. -/
def partSizes : TrainStore → List Nat
  | .list l => l.map blockRows
  | .dict _ => []

/-- Row selection keeps exactly the selected indices as the sample
count (on the concrete source dict). -/
theorem blockRows_widx_c3Source (idx : List Nat) :
    blockRows (split_data_widx c3Source idx) = idx.length := rfl

/-- Row selection keeps exactly the selected indices as the sample
count (on the concrete target dict). -/
theorem blockRows_widx_c3Target (idx : List Nat) :
    blockRows (split_data_widx c3Target idx) = idx.length := rfl

end KPLA

/-- C3: for any permutation-producing seed function, splitting the
30-sample source / 9-sample target orchestrator partitions the source
into sizes (9, 11, 10) — approximately thirds — but the target into
sizes (9, 0, 0), because the target split boundaries int(0.33*n) = 9 and
int(0.67*n) = 20 are computed from the source count n = 30 instead of
the target count n2 = 9 (adaptation.py line 66), leaving two empty
target partitions rather than thirds of 9. -/
theorem split_data_target_uses_source_count (perm : Nat → List Nat)
    (h30 : (perm 30).length = 30) (h9 : (perm 9).length = 9) :
    ∃ st, KPLA.FullAdapt.split_data perm KPLA.c3State = .ok st ∧
      KPLA.partSizes st.source_train = [9, 11, 10] ∧
      KPLA.partSizes st.target_train = [9, 0, 0] := by
  refine ⟨{ KPLA.c3State with
      source_train := .list ((KPLA.npSplit3 (perm 30) 9 20).map
        (KPLA.split_data_widx KPLA.c3Source))
      target_train := .list ((KPLA.npSplit3 (perm 9) 9 20).map
        (KPLA.split_data_widx KPLA.c3Target)) }, ?_, ?_, ?_⟩
  · with_unfolding_all rfl
  · simp [KPLA.partSizes, KPLA.npSplit3, KPLA.blockRows_widx_c3Source,
      List.length_take, List.length_drop, h30]
  · simp [KPLA.partSizes, KPLA.npSplit3, KPLA.blockRows_widx_c3Target,
      List.length_take, List.length_drop, h9]

/-- C3 (witness): the statement instantiated with a concrete permutation
function. -/
theorem split_data_target_uses_source_count_witness :
    (KPLA.idPerm 30).length = 30 ∧ (KPLA.idPerm 9).length = 9 ∧
    (∃ st, KPLA.FullAdapt.split_data KPLA.idPerm KPLA.c3State = .ok st ∧
      KPLA.partSizes st.source_train = [9, 11, 10] ∧
      KPLA.partSizes st.target_train = [9, 0, 0]) :=
  ⟨by simp [KPLA.idPerm], by simp [KPLA.idPerm],
    split_data_target_uses_source_count KPLA.idPerm
      (by simp [KPLA.idPerm]) (by simp [KPLA.idPerm])⟩

/-- C9: classification fit with the split option enabled raises
TypeError for every permutation function: split_data has replaced
self.source_train by a list of three dicts, and the classes_ line of fit
then subscripts that list with the string Y (method.py line 178), so fit
does not terminate normally and classes_ is never set. -/
theorem fit_classification_split_typeerror (perm : Nat → List Nat) :
    KPLA.FullAdapt.fit perm KPLA.c3State "c" true =
      .error (.typeError "list indices must be integers") := by
  with_unfolding_all rfl

/-- C1 (amended): evaluation returns exactly five records, in order:
the source model (source bridge + source CME) scored on the source test
set (row source-source), the target model (target bridge + target CME)
on the source test set (row target-source), the target model on the
target test set (row target-target), the source model on the target test
set (row source-target), and the adaptation combination (source bridge
with target CME) on the target test set (row adaptation) — each row
holding that pairing's metric mapping.  The four non-adaptation rows
thus pair a whole-domain model with a test set; the bridge/CME cross
combination (target bridge, source CME) is never evaluated. -/
theorem evaluation_five_rows (st : KPLA.FullAdaptState) (task : String)
    (sx sy tx ty p1 p2 p3 p4 p5 : KPLA.NpArray)
    (e1 e2 e3 e4 e5 : List (String × ℚ))
    (hsx : KPLA.dget st.source_test "X" = .ok sx)
    (hsy : KPLA.dget st.source_test "Y" = .ok sy)
    (htx : KPLA.dget st.target_test "X" = .ok tx)
    (hty : KPLA.dget st.target_test "Y" = .ok ty)
    (h1 : KPLA.FullAdapt.predict st [("X", sx)] "source" "source" = .ok p1)
    (h1s : KPLA.KernelMethod.score p1 sy task none st.thre = .ok e1)
    (h2 : KPLA.FullAdapt.predict st [("X", sx)] "target" "target" = .ok p2)
    (h2s : KPLA.KernelMethod.score p2 sy task none st.thre = .ok e2)
    (h3 : KPLA.FullAdapt.predict st [("X", tx)] "target" "target" = .ok p3)
    (h3s : KPLA.KernelMethod.score p3 ty task none st.thre = .ok e3)
    (h4 : KPLA.FullAdapt.predict st [("X", tx)] "source" "source" = .ok p4)
    (h4s : KPLA.KernelMethod.score p4 ty task none st.thre = .ok e4)
    (h5 : KPLA.FullAdapt.predict st [("X", tx)] "source" "target" = .ok p5)
    (h5s : KPLA.KernelMethod.score p5 ty task none st.thre = .ok e5) :
    KPLA.FullAdapt.evaluation st task none none = .ok
      [("source-source", e1), ("target-source", e2), ("target-target", e3),
       ("source-target", e4), ("adaptation", e5)] := by
  simp [KPLA.FullAdapt.evaluation, KPLA.FullAdapt.flattenRow, hsx, hsy, htx, hty,
    h1, h1s, h2, h2s, h3, h3s, h4, h4s, h5, h5s]

/-- C1 (witness): the amended statement on the concrete fitted state —
predictions 11, 22, 22, 11, 12, squared errors 121, 484, 484, 121, 144. -/
theorem evaluation_five_rows_witness :
    KPLA.FullAdapt.evaluation KPLA.fittedState "r" none none = .ok
      [("source-source", [("l2", 121)]), ("target-source", [("l2", 484)]),
       ("target-target", [("l2", 484)]), ("source-target", [("l2", 121)]),
       ("adaptation", [("l2", 144)])] :=
  evaluation_five_rows KPLA.fittedState "r"
    ⟨[2], [0, 0]⟩ ⟨[2], [0, 0]⟩ ⟨[2], [0, 0]⟩ ⟨[2], [0, 0]⟩
    ⟨[2], [11, 11]⟩ ⟨[2], [22, 22]⟩ ⟨[2], [22, 22]⟩ ⟨[2], [11, 11]⟩ ⟨[2], [12, 12]⟩
    [("l2", 121)] [("l2", 484)] [("l2", 484)] [("l2", 121)] [("l2", 144)]
    rfl rfl rfl rfl
    (by with_unfolding_all rfl) (by with_unfolding_all rfl)
    (by with_unfolding_all rfl) (by with_unfolding_all rfl)
    (by with_unfolding_all rfl) (by with_unfolding_all rfl)
    (by with_unfolding_all rfl) (by with_unfolding_all rfl)
    (by with_unfolding_all rfl) (by with_unfolding_all rfl)

/-- C1 (counterexample): on a concrete fitted state the bridge/CME cross
combination (target bridge, source CME) predicts 21 with squared error
441, but no row of the evaluation record set holds that combination's
metrics — the five rows carry only the two whole-domain models (each
scored on both test sets) and the adaptation combination, contradicting
the claim that all four bridge/CME combinations get a row each. -/
theorem evaluation_missing_cross_combination :
    KPLA.FullAdapt.evaluation KPLA.fittedState "r" none none = .ok
      [("source-source", [("l2", 121)]), ("target-source", [("l2", 484)]),
       ("target-target", [("l2", 484)]), ("source-target", [("l2", 121)]),
       ("adaptation", [("l2", 144)])] ∧
    KPLA.FullAdapt.predict KPLA.fittedState [("X", ⟨[2], [0, 0]⟩)] "target" "source" =
      .ok ⟨[2], [21, 21]⟩ ∧
    KPLA.KernelMethod.score ⟨[2], [21, 21]⟩ ⟨[2], [0, 0]⟩ "r" none (1/2) =
      .ok [("l2", 441)] ∧
    (121 : ℚ) ≠ 441 ∧ (484 : ℚ) ≠ 441 ∧ (144 : ℚ) ≠ 441 := by
  refine ⟨by with_unfolding_all rfl, by with_unfolding_all rfl,
    by with_unfolding_all rfl, by norm_num, by norm_num, by norm_num⟩

/-- C6: scoring with task r at test_y = [1,2,3] returns MSE 0 for
predict_y = [1,2,3] and MSE 1 for predict_y = [2,3,4]. -/
theorem score_regression_exact :
    KPLA.KernelMethod.score ⟨[3], [1, 2, 3]⟩ ⟨[3], [1, 2, 3]⟩ "r" none (1/2)
      = .ok [("l2", 0)] ∧
    KPLA.KernelMethod.score ⟨[3], [2, 3, 4]⟩ ⟨[3], [1, 2, 3]⟩ "r" none (1/2)
      = .ok [("l2", 1)] := by
  exact ⟨by with_unfolding_all rfl, by with_unfolding_all rfl⟩
